import Mathlib

/-!
Shallow embedding of the satellite-data evaluation engine of
`phenocam_finder`, together with proofs about its specification.

Conventions of the embedding:
* Python `datetime` instants are modelled at day resolution as a structure
  carrying the epoch-day index and the calendar month (the only two pieces
  of a timestamp the evaluated code inspects: `(d2 - d1).days` and
  `date.month`).
* Python `float` arithmetic is modelled over `ℝ` (for the scoring and
  exponential-decay code) and over `ℚ` (for the NDVI outlier detector and
  its statistics, which are thereby executable).
* Fallible Python code is modelled with `Option`: a `none` result stands
  for an uncaught exception (in particular `ZeroDivisionError`).
* On-disk cache files are modelled by an explicit file-state type; wall
  clock instants are integers counting seconds.
-/

namespace PhenocamFinder

/-- A Python `datetime` at day resolution: `day` is the epoch-day index
(`(d2 - d1).days` is `d2.day - d1.day` for midnight-aligned instants) and
`month` the calendar month of the instant. -/
structure PyDate where
  day : ℤ
  month : ℤ
deriving DecidableEq, Repr

/-- A STAC feature as consumed by `core.py`: its `properties.datetime`
and optional `properties.eo:cloud_cover`. -/
structure Feature where
  dt : PyDate
  cloud_cover : Option ℝ

/-- A STAC search response: `{"features": [...]}`. -/
structure SatData where
  features : List Feature

/-- `EVALUATION["growing_season_months"]` from `config.py`: April-October. -/
def growing_season_months : List ℤ := [4, 5, 6, 7, 8, 9, 10]

/-- `EVALUATION["gap_count_threshold"]` from `config.py`. -/
def gap_count_threshold : ℤ := 4

/-- `EVALUATION["weighted_gap_tau"]` from `config.py`. -/
def weighted_gap_tau : ℤ := 20

/-- `EVALUATION["long_output"]` from `config.py`. -/
def long_output : Bool := false

instance : IsTotal PyDate (fun a b => a.day ≤ b.day) :=
  ⟨fun a b => le_total a.day b.day⟩

instance : IsTrans PyDate (fun a b => a.day ≤ b.day) :=
  ⟨fun _ _ _ hab hbc => le_trans hab hbc⟩

namespace Core

/-- `DataFinder._extract_growing_season_dates` (`core.py`): keep the
acquisition instants whose month is in `growing_months`, in sorted order
(Python `sorted` on `datetime`, here by epoch day). No deduplication is
performed. -/
def _extract_growing_season_dates (features : List Feature)
    (growing_months : List ℤ) : List PyDate :=
  (features.map (fun f => f.dt)|>.filter
    (fun d => d.month ∈ growing_months)).insertionSort (fun a b => a.day ≤ b.day)

/-- `DataFinder._calculate_gaps` (`core.py`): day differences between
consecutive dates of the input list, `[]` when fewer than two dates.
The input list is used exactly as given (no deduplication). -/
def _calculate_gaps (dates : List PyDate) : List ℤ :=
  if dates.length < 2 then []
  else (dates.zip dates.tail).map (fun p => p.2.day - p.1.day)

/-- `DataFinder._calculate_gap_count` (`core.py`): number of gaps strictly
exceeding `threshold` days; `0` for the empty list. -/
def _calculate_gap_count (gaps : List ℤ) (threshold : ℤ) : ℕ :=
  if gaps = [] then 0
  else (gaps.filter (fun g => threshold < g)).length

/-- `DataFinder._calculate_weighted_gap_score` (`core.py`):
`WGS = (1/season_length) * Σ exp(gap_i/tau) * gap_i` over ALL gaps in the
list; `0.0` for an empty gap list.  Python raises `ZeroDivisionError` when
the divisor `tau` or `season_length` is `0`, modelled by `none`. -/
noncomputable def _calculate_weighted_gap_score (gaps : List ℤ)
    (season_length : ℤ) (tau : ℤ) : Option ℝ :=
  if gaps = [] then some 0
  else if tau = 0 then none
  else if season_length = 0 then none
  else some (((gaps.map (fun g => Real.exp ((g : ℝ) / (tau : ℝ)) * (g : ℝ))).sum)
      / (season_length : ℝ))

/-- `DataFinder._calculate_temporal_overlap` (`core.py`), restricted to the
`s2_overlap_dates` entry of the returned dict: empty when either input is
empty or when `EVALUATION["long_output"]` is off (the caller reads the key
with default `[]`); otherwise the S2 dates having an S3 date within ±3
days. -/
def _calculate_temporal_overlap_s2 (s2_dates s3_dates : List PyDate) :
    List ℤ :=
  if s2_dates = [] ∨ s3_dates = [] then []
  else if long_output then
    (s2_dates.filter (fun d2 => s3_dates.any (fun d3 => (d2.day - d3.day).natAbs ≤ 3))).map
      (fun d => d.day)
  else []

/-- `DataFinder._calculate_suitability_score` (`core.py`): weighted sum of
density, cloud and gap sub-scores; hard-coded `0.0` when `s2_density` is
exactly `0`.  `overlap_days` and `s3_weighted_gap_score` are accepted but
unused, exactly as in the source body. -/
noncomputable def _calculate_suitability_score (s2_density s3_density cloud_mean : ℝ)
    (max_gap : ℤ) (overlap_days : ℤ) (s2_weighted_gap_score s3_weighted_gap_score : ℝ)
    (gap_count : ℤ) : ℝ :=
  if s2_density = 0 then 0
  else
    let s2_density_score := min (s2_density / 3.0) 1.0 * 0.3
    let s3_density_score := min (s3_density / 2.0) 1.0 * 0.3
    let cloud_factor := max 0.05 (1.0 - (cloud_mean / 80.0) ^ (1.5 : ℝ))
    let cloud_score := cloud_factor * 0.25
    let max_gap_component := max 0.1 (1.0 - ((max_gap : ℝ) / 30.0) ^ (1.2 : ℝ))
    let weighted_gap_component := max 0.1 (1.0 - min (s2_weighted_gap_score / 2.0) 1.0)
    let expected_obs := max (s2_density * 8) 1
    let gap_freq_penalty :=
      if 0 < gap_count then min ((gap_count : ℝ) / expected_obs) 1.0 else 0.0
    let gap_freq_component := max 0.2 (1.0 - gap_freq_penalty)
    let gap_score :=
      (max_gap_component * 0.4 + weighted_gap_component * 0.4 +
        gap_freq_component * 0.2) * 0.15
    s2_density_score + s3_density_score + cloud_score + gap_score

end Core

/-- Python `round()` to an integer over `ℚ`: round half to even. -/
def pyRoundInt (x : ℚ) : ℤ :=
  if x - ⌊x⌋ < 1 / 2 then ⌊x⌋
  else if 1 / 2 < x - ⌊x⌋ then ⌊x⌋ + 1
  else if Even ⌊x⌋ then ⌊x⌋ else ⌊x⌋ + 1

/-- Python `round(x, n)` over `ℚ` (half-to-even at `n` decimal digits). -/
def pyRound (n : ℕ) (x : ℚ) : ℚ :=
  (pyRoundInt (x * 10 ^ n) : ℚ) / 10 ^ n

/-- Python `round()` to an integer over `ℝ`: round half to even. -/
noncomputable def pyRoundIntR (x : ℝ) : ℤ :=
  if x - ⌊x⌋ < 1 / 2 then ⌊x⌋
  else if 1 / 2 < x - ⌊x⌋ then ⌊x⌋ + 1
  else if Even ⌊x⌋ then ⌊x⌋ else ⌊x⌋ + 1

/-- Python `round(x, n)` over `ℝ` (half-to-even at `n` decimal digits). -/
noncomputable def pyRoundR (n : ℕ) (x : ℝ) : ℝ :=
  (pyRoundIntR (x * 10 ^ n) : ℝ) / 10 ^ n

/-- `statistics.mean` over `ℝ` (callers guard against the empty list). -/
noncomputable def statisticsMean (l : List ℝ) : ℝ := l.sum / (l.length : ℝ)

/-- `statistics.stdev` over `ℝ`: sample standard deviation (callers guard
against lists of fewer than two elements). -/
noncomputable def statisticsStdev (l : List ℝ) : ℝ :=
  Real.sqrt ((l.map (fun x => (x - statisticsMean l) ^ 2)).sum / ((l.length : ℝ) - 1))

namespace Core

/-- The per-season result dict assembled by
`DataFinder._calculate_seasonal_metrics` (`core.py`), restricted to the
keys the code writes.  Keys that a given control path does not write keep
the listed defaults (dict `.get` with the default the caller uses). -/
structure SeasonalMetrics where
  sitename : String
  sentinel2_scenes : ℕ
  sentinel3_scenes : ℕ
  season_start_date : ℤ
  season_end_date : ℤ
  season_length_days : ℤ
  error : Option String := none
  suitability_score : Option ℝ := none
  max_s2_gap_days : Option ℤ := none
  s2_gap_count : ℕ := 0
  s2_weighted_gap_score : ℝ := 0
  max_s3_gap_days : Option ℤ := none
  s3_gap_count : ℕ := 0
  s3_weighted_gap_score : ℝ := 0
  s2_cloud_cover_mean : ℝ := 0
  s2_cloud_cover_std : ℝ := 0
  s3_cloud_cover_mean : ℝ := 0
  s3_cloud_cover_std : ℝ := 0
  s2_overlap_dates : List ℤ := []

/-- `DataFinder._calculate_seasonal_metrics` (`core.py`).  Returns `none`
when the Python body would raise (`ZeroDivisionError` from the weighted
gap score); the caller's `try` block catches that. -/
noncomputable def _calculate_seasonal_metrics (s2_data s3_data : SatData)
    (sitename : String) (season_start season_end : PyDate)
    (season_months : List ℤ) : Option SeasonalMetrics :=
  let s2_features := s2_data.features
  let s3_features := s3_data.features
  let s2_dates := _extract_growing_season_dates s2_features season_months
  let s3_dates := _extract_growing_season_dates s3_features season_months
  let base : SeasonalMetrics :=
    { sitename := sitename
      sentinel2_scenes := s2_dates.length
      sentinel3_scenes := s3_dates.length
      season_start_date := season_start.day
      season_end_date := season_end.day
      season_length_days := season_end.day - season_start.day }
  if s2_dates = [] ∧ s3_dates = [] then
    some { base with
      error := some "No satellite data available for this season"
      suitability_score := some 0.0 }
  else do
    let season_length := season_end.day - season_start.day
    let r2 : SeasonalMetrics ←
      if s2_dates ≠ [] then do
        let s2_gaps := _calculate_gaps s2_dates
        let w2 ← _calculate_weighted_gap_score s2_gaps season_length weighted_gap_tau
        pure { base with
          max_s2_gap_days := some ((s2_gaps.max?).getD 0)
          s2_gap_count := _calculate_gap_count s2_gaps gap_count_threshold
          s2_weighted_gap_score := pyRoundR 3 w2 }
      else
        pure { base with
          max_s2_gap_days := none
          s2_gap_count := 0
          s2_weighted_gap_score := 0.0 }
    let r3 : SeasonalMetrics ←
      if s3_dates ≠ [] then do
        let s3_gaps := _calculate_gaps s3_dates
        let w3 ← _calculate_weighted_gap_score s3_gaps season_length weighted_gap_tau
        pure { r2 with
          max_s3_gap_days := some ((s3_gaps.max?).getD 0)
          s3_gap_count := _calculate_gap_count s3_gaps gap_count_threshold
          s3_weighted_gap_score := pyRoundR 3 w3 }
      else
        pure { r2 with
          max_s3_gap_days := none
          s3_gap_count := 0
          s3_weighted_gap_score := 0.0 }
    let s2_cloud_covers := s2_features.map (fun f => f.cloud_cover.getD 0)
    let r4 : SeasonalMetrics :=
      if s2_features.isEmpty then
        { r3 with s2_cloud_cover_mean := 0, s2_cloud_cover_std := 0 }
      else
        { r3 with
          s2_cloud_cover_mean := pyRoundR 1 (statisticsMean s2_cloud_covers)
          s2_cloud_cover_std :=
            pyRoundR 1 (if 1 < s2_cloud_covers.length then statisticsStdev s2_cloud_covers else 0) }
    let s3_cloud_covers := s3_features.map (fun f => f.cloud_cover.getD 0)
    let r5 : SeasonalMetrics :=
      if s3_features.isEmpty then
        { r4 with s3_cloud_cover_mean := 0, s3_cloud_cover_std := 0 }
      else
        { r4 with
          s3_cloud_cover_mean := pyRoundR 1 (statisticsMean s3_cloud_covers)
          s3_cloud_cover_std :=
            pyRoundR 1 (if 1 < s3_cloud_covers.length then statisticsStdev s3_cloud_covers else 0) }
    let r6 : SeasonalMetrics :=
      { r5 with s2_overlap_dates := _calculate_temporal_overlap_s2 s2_dates s3_dates }
    let season_days := r6.season_length_days
    let s2_density : ℝ :=
      if 0 < season_days then ((s2_dates.length : ℝ) / (season_days : ℝ)) * 30 else 0
    let s3_density : ℝ :=
      if 0 < season_days then ((s3_dates.length : ℝ) / (season_days : ℝ)) * 30 else 0
    let overlap_count := r6.s2_overlap_dates.length
    let s2_cloud_mean := r6.s2_cloud_cover_mean
    let s2_gap := (r6.max_s2_gap_days).getD 999
    let s3_gap := (r6.max_s3_gap_days).getD 999
    pure { r6 with
      suitability_score := some (pyRoundR 2 (_calculate_suitability_score
        s2_density s3_density s2_cloud_mean (min s2_gap s3_gap) (overlap_count : ℤ)
        r6.s2_weighted_gap_score r6.s3_weighted_gap_score (r6.s2_gap_count : ℤ))) }

/-- The slice of a row of `DataFinder.evaluate_site_by_seasons` (`core.py`)
that the error-handling design talks about. -/
structure SeasonRow where
  sitename : String
  growing_season_year : ℤ
  error : Option String := none
  suitability_score : Option ℝ := none

/-- One iteration of the per-year loop of
`DataFinder.evaluate_site_by_seasons` (`core.py`).  `queryOutcome` is the
outcome of the two satellite queries for the season (`Except.error` when a
query raised); any exception raised inside the `try` block, including one
propagating out of `_calculate_seasonal_metrics`, lands in the `except`
branch, which records `suitability_score = None` and the error text. -/
noncomputable def evaluate_one_season
    (queryOutcome : Except String (SatData × SatData)) (sitename : String)
    (year : ℤ) (season_start season_end : PyDate) (season_months : List ℤ) :
    SeasonRow :=
  match queryOutcome with
  | .error e =>
    { sitename := sitename, growing_season_year := year
      error := some e, suitability_score := none }
  | .ok (s2_data, s3_data) =>
    match _calculate_seasonal_metrics s2_data s3_data sitename
        season_start season_end season_months with
    | some m =>
      { sitename := sitename, growing_season_year := year
        error := m.error, suitability_score := m.suitability_score }
    | none =>
      { sitename := sitename, growing_season_year := year
        error := some "ZeroDivisionError: float division by zero"
        suitability_score := none }

end Core

namespace GetIndices

/-- `sorted(set(...))` on the parsed dates inside `calculate_gaps`
(`get_indices.py`): the distinct calendar dates (epoch-day integers) in
ascending order. -/
def unique_dates (dates : List ℤ) : List ℤ :=
  (dates.dedup).insertionSort (fun a b => a ≤ b)

/-- Day differences between consecutive elements of a date list, as built
by the comprehensions in `calculate_gaps` of `get_indices.py` and
`get_scenes.py`. -/
def consecutive_gaps (l : List ℤ) : List ℤ :=
  (l.zip l.tail).map (fun p => p.2 - p.1)

/-- `calculate_gaps` (`get_indices.py`): deduplicate and sort the dates,
take consecutive day gaps, keep those strictly above `threshold_days`, and
return `(max gap, gap count, sum of squared gaps / (number of unique dates - 1))`,
with `(0, 0, 0.0)` when fewer than two (unique) dates or no qualifying
gap. -/
def calculate_gaps (dates : List ℤ) (threshold_days : ℤ) : ℤ × ℕ × ℚ :=
  if dates.length < 2 then (0, 0, 0)
  else
    let u := unique_dates dates
    if u.length < 2 then (0, 0, 0)
    else
      let gaps := (consecutive_gaps u).filter (fun g => threshold_days < g)
      ((gaps.max?).getD 0, gaps.length,
        if gaps = [] then 0
        else ((gaps.map (fun g => (g : ℚ) * (g : ℚ))).sum) / ((u.length : ℚ) - 1))

/-- One entry of an NDVI time series: a calendar date (epoch-day integer)
and an optional index value (`None` = no data). -/
structure NdviEntry where
  date : ℤ
  ndvi : Option ℚ
deriving DecidableEq

/-- The `valid_data` list of `detect_outliers_upper_envelope`
(`get_indices.py`): the non-`None` entries as `(date, value)` pairs,
sorted by date. -/
def valid_data (ndvi_data : List NdviEntry) : List (ℤ × ℚ) :=
  (ndvi_data.filterMap (fun e => e.ndvi.map (fun v => (e.date, v)))).insertionSort
    (fun a b => a.1 ≤ b.1)

/-- `np.percentile(values, p)` with the default linear interpolation, over
`ℚ` (callers guard against the empty list). -/
def np_percentile (values : List ℚ) (p : ℚ) : ℚ :=
  let s := values.insertionSort (fun a b => a ≤ b)
  let k : ℚ := ((s.length : ℚ) - 1) * p / 100
  let vf := s.getD (⌊k⌋).toNat 0
  let vc := s.getD (⌈k⌉).toNat 0
  vf + (k - (⌊k⌋ : ℚ)) * (vc - vf)

/-- The `upper_envelopes` dictionary of `detect_outliers_upper_envelope`
(`get_indices.py`), as a partial map from dates: defined at `d` exactly
when some valid observation falls on `d` and the centered window around
`d` contains at least one value `≥ 0.1`; its value is then the configured
percentile of that windowed set. -/
def upper_envelopes (valid : List (ℤ × ℚ)) (window_days : ℤ)
    (percentile : ℚ) (d : ℤ) : Option ℚ :=
  if valid.any (fun x => x.1 = d) then
    let window_start := d - window_days.fdiv 2
    let window_end := d + window_days.fdiv 2
    let window_values :=
      (valid.filter (fun x =>
        window_start ≤ x.1 ∧ x.1 ≤ window_end ∧ (0.1 : ℚ) ≤ x.2)).map (fun x => x.2)
    if window_values = [] then none
    else some (np_percentile window_values percentile)
  else none

/-- `detect_outliers_upper_envelope` (`get_indices.py`): one boolean per
input entry, in input order.  `None` values are never flagged; a value
below the absolute floor `0.1` is always flagged; otherwise the entry is
flagged when it lies more than `threshold_below` under the upper envelope
at its date, and is not flagged when no envelope exists there. -/
def detect_outliers_upper_envelope (ndvi_data : List NdviEntry)
    (window_days : ℤ) (percentile : ℚ) (threshold_below : ℚ) : List Bool :=
  let valid := valid_data ndvi_data
  if valid = [] then ndvi_data.map (fun _ => false)
  else
    ndvi_data.map (fun e =>
      match e.ndvi with
      | none => false
      | some ndvi_val =>
        if ndvi_val < 0.1 then true
        else
          match upper_envelopes valid window_days percentile e.date with
          | some envelope_value => threshold_below < envelope_value - ndvi_val
          | none => false)

/-- The statistics dict assembled by `calculate_ndvi_from_series`
(`get_indices.py`), restricted to the numeric fields. -/
structure NdviStats where
  ndvi_observations : ℕ
  ndvi_mean : ℚ
  ndvi_min : ℚ
  ndvi_max : ℚ
  ndvi_max_s2_gap_days : ℤ
  ndvi_s2_gap_count : ℕ
  ndvi_s2_weighted_gap_score : ℚ
  ndvi_range : ℚ
deriving DecidableEq

/-- `envelope_window_days` default used by `calculate_ndvi_from_series`
(the repository's `config.yaml` is not part of the sources; `config.get`
falls back to this default). -/
def envelope_window_days : ℤ := 30

/-- `envelope_percentile` default of `calculate_ndvi_from_series`. -/
def envelope_percentile : ℚ := 80

/-- `envelope_threshold_below` default of `calculate_ndvi_from_series`. -/
def envelope_threshold_below : ℚ := 0.15

/-- `calculate_ndvi_from_series` (`get_indices.py`): run the outlier
detector, keep the non-`None`, non-outlier values and their dates, compute
gap statistics over the kept dates with `threshold_days=3`, and assemble
the summary statistics (`0`/`0.0` for mean, min, max and range when no
value is kept). -/
def calculate_ndvi_from_series (ndvi_series : List NdviEntry) : NdviStats :=
  let outlier_flags := detect_outliers_upper_envelope ndvi_series
    envelope_window_days envelope_percentile envelope_threshold_below
  let zipped := ndvi_series.zip outlier_flags
  let ndvi_values := zipped.filterMap (fun p =>
    match p.1.ndvi with
    | some v => if p.2 then none else some v
    | none => none)
  let used_dates := zipped.filterMap (fun p =>
    match p.1.ndvi with
    | some _ => if p.2 then none else some p.1.date
    | none => none)
  let gap_stats := calculate_gaps used_dates 3
  { ndvi_observations := ndvi_values.length
    ndvi_mean :=
      match ndvi_values with
      | [] => 0
      | _ => pyRound 4 (ndvi_values.sum / (ndvi_values.length : ℚ))
    ndvi_min :=
      match ndvi_values with
      | [] => 0
      | v :: vs => pyRound 4 (vs.foldl min v)
    ndvi_max :=
      match ndvi_values with
      | [] => 0
      | v :: vs => pyRound 4 (vs.foldl max v)
    ndvi_max_s2_gap_days := gap_stats.1
    ndvi_s2_gap_count := gap_stats.2.1
    ndvi_s2_weighted_gap_score := pyRound 2 gap_stats.2.2
    ndvi_range :=
      match ndvi_values with
      | [] => 0
      | v :: vs => pyRound 4 (vs.foldl max v - vs.foldl min v) }

end GetIndices

/-- The state of one on-disk cache file for a given key: missing, present
but undecodable (decode failure or missing fields), or a decoded entry
with its write timestamp (seconds) and payload. -/
inductive CacheFile (P : Type) where
  | absent : CacheFile P
  | corrupt : CacheFile P
  | valid (timestamp : ℤ) (payload : P) : CacheFile P
deriving DecidableEq

/-- Python `timedelta.days` of a duration given in seconds: floor division
by 86400 (rounds toward minus infinity). -/
def timedeltaDays (seconds : ℤ) : ℤ := seconds.fdiv 86400

namespace SatelliteQuery

/-- `SatelliteQuery._get_cached_result` (`satellite_query.py`): returns the
stored payload when the file holds a decodable entry whose age in whole
days is not greater than 7, together with the file state after the read
(a corrupted file is unlinked; an expired entry is left in place and `None`
is returned). -/
def _get_cached_result {P : Type} (now : ℤ) (file : CacheFile P) :
    Option P × CacheFile P :=
  match file with
  | .absent => (none, .absent)
  | .corrupt => (none, .absent)
  | .valid ts p =>
    if 7 < timedeltaDays (now - ts) then (none, .valid ts p)
    else (some p, .valid ts p)

/-- `SatelliteQuery._cache_result` (`satellite_query.py`): write the result
with the current timestamp; a failing write (`writeOk = false`) is logged
and swallowed, leaving the file as it was. -/
def _cache_result {P : Type} (now : ℤ) (writeOk : Bool) (result : P)
    (file : CacheFile P) : CacheFile P :=
  if writeOk then .valid now result else file

/-- The cache skeleton of `SatelliteQuery.search_satellite_data_daterange`
(`satellite_query.py`): on a cache hit return the cached payload without
fetching; on a miss return `fetched` (the remote response) and try to
cache it.  The boolean records whether the remote fetch was performed
(`cache_misses` incremented). -/
def search_satellite_data_daterange {P : Type} (now : ℤ)
    (file : CacheFile P) (writeOk : Bool) (fetched : P) :
    P × CacheFile P × Bool :=
  match _get_cached_result now file with
  | (some p, fileAfter) => (p, fileAfter, false)
  | (none, fileAfter) => (fetched, _cache_result now writeOk fetched fileAfter, true)

end SatelliteQuery

namespace PhenoCamQuery

/-- `PhenoCamQuery._get_cached_result` (`phenocam_query.py`): returns the
stored payload when the entry's age in seconds is not greater than
`24 * 3600`; a corrupted file is unlinked and treated as a miss. -/
def _get_cached_result {P : Type} (now : ℤ) (file : CacheFile P) :
    Option P × CacheFile P :=
  match file with
  | .absent => (none, .absent)
  | .corrupt => (none, .absent)
  | .valid ts p =>
    if 24 * 3600 < now - ts then (none, .valid ts p)
    else (some p, .valid ts p)

/-- `PhenoCamQuery._cache_result` (`phenocam_query.py`): write the result
with the current timestamp; a failing write is logged and swallowed. -/
def _cache_result {P : Type} (now : ℤ) (writeOk : Bool) (result : P)
    (file : CacheFile P) : CacheFile P :=
  if writeOk then .valid now result else file

/-- The cache skeleton of `PhenoCamQuery.get_all_locations`
(`phenocam_query.py`): cached payload on a hit, otherwise the fetched and
filtered locations, which are then cached (write failures swallowed).  The
boolean records whether the remote API was queried. -/
def get_all_locations {P : Type} (now : ℤ) (file : CacheFile P)
    (writeOk : Bool) (fetched : P) : P × CacheFile P × Bool :=
  match _get_cached_result now file with
  | (some p, fileAfter) => (p, fileAfter, false)
  | (none, fileAfter) => (fetched, _cache_result now writeOk fetched fileAfter, true)

end PhenoCamQuery

/-! ## Helper lemmas -/

/-- Consecutive differences of a `≤`-sorted list of dates are nonnegative. -/
lemma gaps_nonneg_of_sorted :
    ∀ l : List PyDate, List.Sorted (fun a b => a.day ≤ b.day) l →
      ∀ g ∈ (l.zip l.tail).map (fun p => p.2.day - p.1.day), 0 ≤ g := by
  intro l
  induction l with
  | nil => intro _ g hg; simp at hg
  | cons a t ih =>
    intro hs g hg
    cases t with
    | nil => simp at hg
    | cons b t2 =>
      rw [List.sorted_cons] at hs
      simp only [List.tail_cons, List.zip_cons_cons, List.map_cons, List.mem_cons] at hg
      rcases hg with h | h
      · have hab : a.day ≤ b.day := hs.1 b (by simp)
        omega
      · exact ih hs.2 g (by simpa using h)

/-- Consecutive differences of a strictly sorted list of integers are
positive. -/
lemma consecutive_gaps_pos_of_sorted :
    ∀ l : List ℤ, List.Sorted (fun a b : ℤ => a < b) l →
      ∀ g ∈ GetIndices.consecutive_gaps l, 0 < g := by
  intro l
  induction l with
  | nil => intro _ g hg; simp [GetIndices.consecutive_gaps] at hg
  | cons a t ih =>
    intro hs g hg
    cases t with
    | nil => simp [GetIndices.consecutive_gaps] at hg
    | cons b t2 =>
      rw [List.sorted_cons] at hs
      simp only [GetIndices.consecutive_gaps, List.tail_cons, List.zip_cons_cons,
        List.map_cons, List.mem_cons] at hg
      rcases hg with h | h
      · have hab : a < b := hs.1 b (by simp)
        omega
      · exact ih hs.2 g (by simpa [GetIndices.consecutive_gaps] using h)

/-- `unique_dates` is strictly increasing. -/
lemma unique_dates_sorted_lt (dates : List ℤ) :
    List.Sorted (fun a b : ℤ => a < b) (GetIndices.unique_dates dates) := by
  have hle : List.Sorted (fun a b : ℤ => a ≤ b) (GetIndices.unique_dates dates) :=
    List.sorted_insertionSort _ _
  have hnd : (GetIndices.unique_dates dates).Nodup := by
    unfold GetIndices.unique_dates
    exact ((List.perm_insertionSort _ _).symm).nodup (dates.nodup_dedup)
  exact List.Sorted.lt_of_le hle hnd

/-! ## Claims -/

/-- C10: `_calculate_suitability_score` does not depend on its
`overlap_days` and `s3_weighted_gap_score` arguments: for any two values
of each, with all other arguments fixed, the score is unchanged. -/
theorem suitability_score_ignores_overlap_and_s3_wgs
    (s2_density s3_density cloud_mean : ℝ) (max_gap : ℤ)
    (overlap_days overlap_days2 : ℤ) (w2 w3 w3b : ℝ) (gap_count : ℤ) :
    Core._calculate_suitability_score s2_density s3_density cloud_mean max_gap
      overlap_days w2 w3 gap_count =
    Core._calculate_suitability_score s2_density s3_density cloud_mean max_gap
      overlap_days2 w2 w3b gap_count := rfl

/-- C8 (code evaluated at the failing input): with the non-empty gap list
`[10]` and `season_length_days = 0`, `_calculate_weighted_gap_score`
divides by zero — Python raises `ZeroDivisionError` (modelled `none`)
instead of returning the `0.0` the design requires. -/
theorem weighted_gap_score_zero_season_raises :
    Core._calculate_weighted_gap_score [10] 0 weighted_gap_tau = none := by
  simp [Core._calculate_weighted_gap_score, weighted_gap_tau]

/-- C9: the cache never fails its caller because of persistence problems.
A corrupted stored entry is treated as absent and the file is removed, in
both cache modules; and on a miss the freshly fetched value is returned to
the caller whether or not the cache write succeeds (write failures are
swallowed). -/
theorem cache_corruption_and_write_failure :
    (∀ (P : Type) (now : ℤ),
      SatelliteQuery._get_cached_result now (.corrupt : CacheFile P) = (none, .absent)) ∧
    (∀ (P : Type) (now : ℤ),
      PhenoCamQuery._get_cached_result now (.corrupt : CacheFile P) = (none, .absent)) ∧
    (∀ (P : Type) (now : ℤ) (fetched : P) (writeOk : Bool),
      (SatelliteQuery.search_satellite_data_daterange now .corrupt writeOk fetched).1 = fetched ∧
      (PhenoCamQuery.get_all_locations now .corrupt writeOk fetched).1 = fetched) ∧
    (∀ (P : Type) (now : ℤ) (file : CacheFile P) (fetched : P),
      (SatelliteQuery.search_satellite_data_daterange now file false fetched).1 =
        (SatelliteQuery.search_satellite_data_daterange now file true fetched).1 ∧
      (PhenoCamQuery.get_all_locations now file false fetched).1 =
        (PhenoCamQuery.get_all_locations now file true fetched).1) := by
  refine ⟨fun P now => rfl, fun P now => rfl, fun P now fetched writeOk => ⟨rfl, rfl⟩,
    fun P now file fetched => ?_⟩
  cases file with
  | absent => exact ⟨rfl, rfl⟩
  | corrupt => exact ⟨rfl, rfl⟩
  | valid ts p =>
    constructor
    · simp only [SatelliteQuery.search_satellite_data_daterange,
        SatelliteQuery._get_cached_result]
      split <;> rfl
    · simp only [PhenoCamQuery.get_all_locations, PhenoCamQuery._get_cached_result]
      split <;> rfl

/-- C4 counterexample: the gap computation of `core.py` does NOT
deduplicate.  Two acquisitions on the same calendar day (epoch day `0`,
June) survive extraction as a duplicated, non-unique date sequence, and
`_calculate_gaps` produces a `0`-day gap from them. -/
theorem core_gaps_no_dedup_counterexample :
    Core._extract_growing_season_dates
        [⟨⟨0, 6⟩, none⟩, ⟨⟨0, 6⟩, none⟩] growing_season_months =
      [⟨0, 6⟩, ⟨0, 6⟩] ∧
    ¬ (Core._extract_growing_season_dates
        [⟨⟨0, 6⟩, none⟩, ⟨⟨0, 6⟩, none⟩] growing_season_months).Nodup ∧
    Core._calculate_gaps (Core._extract_growing_season_dates
        [⟨⟨0, 6⟩, none⟩, ⟨⟨0, 6⟩, none⟩] growing_season_months) = [0] := by
  refine ⟨by decide, by decide, by decide⟩

/-- C4 (amended): `calculate_gaps` of `get_indices.py` deduplicates to
unique calendar dates and sorts ascending, so its underlying date sequence
is strictly increasing and all of its consecutive gaps are positive; the
gap computation of `core.py` consumes dates sorted ascending (via
`_extract_growing_season_dates`) but without deduplication, so its gaps
are still all `≥ 0` but same-day reacquisitions yield `0`-day gaps from a
non-unique sequence. -/
theorem gap_dates_dedup_and_order :
    (∀ dates : List ℤ,
      List.Sorted (fun a b : ℤ => a < b) (GetIndices.unique_dates dates) ∧
      ∀ g ∈ GetIndices.consecutive_gaps (GetIndices.unique_dates dates), 0 < g) ∧
    (∀ (features : List Feature) (months : List ℤ),
      ∀ g ∈ Core._calculate_gaps (Core._extract_growing_season_dates features months),
        0 ≤ g) := by
  constructor
  · intro dates
    refine ⟨unique_dates_sorted_lt dates, ?_⟩
    exact consecutive_gaps_pos_of_sorted _ (unique_dates_sorted_lt dates)
  · intro features months g hg
    have hs : List.Sorted (fun a b : PyDate => a.day ≤ b.day)
        (Core._extract_growing_season_dates features months) :=
      List.sorted_insertionSort _ _
    rw [Core._calculate_gaps] at hg
    split at hg
    · simp at hg
    · exact gaps_nonneg_of_sorted _ hs g hg

/-- C4 witness: the amended theorem applied at concrete inputs. -/
theorem gap_dates_dedup_and_order_witness :
    ((2 : ℤ) ∈ GetIndices.consecutive_gaps (GetIndices.unique_dates [5, 3, 5]) ∧
      (0 : ℤ) < 2) ∧
    ((4 : ℤ) ∈ Core._calculate_gaps (Core._extract_growing_season_dates
        [⟨⟨4, 6⟩, none⟩, ⟨⟨0, 6⟩, none⟩] growing_season_months) ∧ (0 : ℤ) ≤ 4) := by
  constructor
  · exact ⟨by decide, (gap_dates_dedup_and_order.1 [5, 3, 5]).2 2 (by decide)⟩
  · exact ⟨by decide, gap_dates_dedup_and_order.2
      [⟨⟨4, 6⟩, none⟩, ⟨⟨0, 6⟩, none⟩] growing_season_months 4 (by decide)⟩

/-- C5 counterexample: the imagery-search cache compares whole elapsed
days against 7, so a stored entry whose age is 7 days and 1 hour —
strictly older than the 7-day TTL — is still returned as a hit (payload
`42`, no fetch performed). -/
theorem satellite_cache_ttl_counterexample :
    SatelliteQuery.search_satellite_data_daterange (7 * 86400 + 3600)
        (.valid 0 (42 : ℤ)) true 99 = (42, .valid 0 42, false) ∧
    7 * 86400 < (7 * 86400 + 3600) - (0 : ℤ) := by
  refine ⟨by decide, by decide⟩

/-- C5 (amended): a lookup whose stored entry is within TTL returns the
stored payload without a remote fetch in both cache modules; the location
directory cache (24 h) expires exactly at an age of `24*3600` seconds, but
the imagery search cache expires at whole-day granularity — it misses (and
refetches) exactly when `floor(age / 86400) > 7`, i.e. once the age
reaches 8 days, so entries aged between 7 and 8 days are still served. -/
theorem cache_ttl_hit_and_expiry :
    (∀ (P : Type) (now ts : ℤ) (p fetched : P) (writeOk : Bool),
      now - ts ≤ 24 * 3600 →
      PhenoCamQuery.get_all_locations now (.valid ts p) writeOk fetched =
        (p, .valid ts p, false)) ∧
    (∀ (P : Type) (now ts : ℤ) (p fetched : P) (writeOk : Bool),
      24 * 3600 < now - ts →
      PhenoCamQuery.get_all_locations now (.valid ts p) writeOk fetched =
        (fetched, PhenoCamQuery._cache_result now writeOk fetched (.valid ts p), true)) ∧
    (∀ (P : Type) (now ts : ℤ) (p fetched : P) (writeOk : Bool),
      timedeltaDays (now - ts) ≤ 7 →
      SatelliteQuery.search_satellite_data_daterange now (.valid ts p) writeOk fetched =
        (p, .valid ts p, false)) ∧
    (∀ (P : Type) (now ts : ℤ) (p fetched : P) (writeOk : Bool),
      7 < timedeltaDays (now - ts) →
      SatelliteQuery.search_satellite_data_daterange now (.valid ts p) writeOk fetched =
        (fetched, SatelliteQuery._cache_result now writeOk fetched (.valid ts p), true)) := by
  refine ⟨?_, ?_, ?_, ?_⟩
  · intro P now ts p fetched writeOk h
    simp only [PhenoCamQuery.get_all_locations, PhenoCamQuery._get_cached_result]
    rw [if_neg (by omega)]
  · intro P now ts p fetched writeOk h
    simp only [PhenoCamQuery.get_all_locations, PhenoCamQuery._get_cached_result]
    rw [if_pos h]
  · intro P now ts p fetched writeOk h
    simp only [SatelliteQuery.search_satellite_data_daterange,
      SatelliteQuery._get_cached_result]
    rw [if_neg (by omega)]
  · intro P now ts p fetched writeOk h
    simp only [SatelliteQuery.search_satellite_data_daterange,
      SatelliteQuery._get_cached_result]
    rw [if_pos h]

/-- C5 witness: the amended theorem applied at concrete instants: a 1-hour
old directory entry is a hit, a 25-hour old one is refetched; a 3-day old
imagery entry is a hit, a 9-day old one is refetched. -/
theorem cache_ttl_hit_and_expiry_witness :
    PhenoCamQuery.get_all_locations 3600 (.valid 0 (1 : ℤ)) true 2 =
      (1, .valid 0 1, false) ∧
    PhenoCamQuery.get_all_locations (25 * 3600) (.valid 0 (1 : ℤ)) true 2 =
      (2, .valid (25 * 3600) 2, true) ∧
    SatelliteQuery.search_satellite_data_daterange (3 * 86400) (.valid 0 (1 : ℤ)) true 2 =
      (1, .valid 0 1, false) ∧
    SatelliteQuery.search_satellite_data_daterange (9 * 86400) (.valid 0 (1 : ℤ)) true 2 =
      (2, .valid (9 * 86400) 2, true) := by
  refine ⟨cache_ttl_hit_and_expiry.1 ℤ 3600 0 1 2 true (by decide),
    ?_, cache_ttl_hit_and_expiry.2.2.1 ℤ (3 * 86400) 0 1 2 true (by decide), ?_⟩
  · have h := cache_ttl_hit_and_expiry.2.1 ℤ (25 * 3600) 0 1 2 true (by decide)
    simpa [PhenoCamQuery._cache_result] using h
  · have h := cache_ttl_hit_and_expiry.2.2.2 ℤ (9 * 86400) 0 1 2 true (by decide)
    simpa [SatelliteQuery._cache_result] using h

/-- Numeric bounds on `exp(1/2)`, from the Mathlib bounds on `exp 1`. -/
lemma exp_half_bounds : 1.629 < Real.exp (1 / 2) ∧ Real.exp (1 / 2) < 1.671 := by
  have hsq : Real.exp (1 / 2) * Real.exp (1 / 2) = Real.exp 1 := by
    rw [← Real.exp_add]; norm_num
  have hpos := Real.exp_pos (1 / 2 : ℝ)
  have hlo := Real.exp_one_gt_d9
  have hhi := Real.exp_one_lt_d9
  constructor
  · nlinarith [hsq, hlo, hpos]
  · nlinarith [hsq, hhi, hpos, sq_nonneg (Real.exp (1 / 2) - 1.671)]

/-- C2 counterexample: the gap `3` exceeds neither the gap-count threshold
(4) nor τ (20), yet `_calculate_weighted_gap_score [3] 214 20` is not
`0.0`: the sum in the code ranges over ALL gaps, with no threshold
filter. -/
theorem weighted_gap_score_no_threshold_counterexample :
    ¬ (gap_count_threshold < 3) ∧ ¬ (weighted_gap_tau < 3) ∧
    Core._calculate_weighted_gap_score [3] 214 weighted_gap_tau ≠ some 0 := by
  refine ⟨by decide, by decide, ?_⟩
  have hval : Core._calculate_weighted_gap_score [3] 214 weighted_gap_tau =
      some ((Real.exp ((3 : ℝ) / 20) * 3 + 0) / 214) := by
    simp [Core._calculate_weighted_gap_score, weighted_gap_tau]
  rw [hval]
  simp only [Ne, Option.some.injEq]
  intro h
  have hp : (0 : ℝ) < (Real.exp ((3 : ℝ) / 20) * 3 + 0) / 214 := by positivity
  linarith

/-- C2 (amended): for every gap list, season length `T > 0` and nonzero τ,
the weighted gap score is `(1/T) * Σ exp(gap_i/τ) * gap_i` over ALL gaps
of the list (no threshold filter; the result is `0.0` exactly when the
gap list is empty); for gaps `[10]`, τ = 20 and `T = 214` the result is
`exp(0.5)*10/214`, which is within `±0.001` of `0.0771`. -/
theorem weighted_gap_score_sums_all_gaps :
    (∀ (gaps : List ℤ) (T tau : ℤ), 0 < T → tau ≠ 0 →
      Core._calculate_weighted_gap_score gaps T tau =
        some ((gaps.map (fun g => Real.exp ((g : ℝ) / (tau : ℝ)) * (g : ℝ))).sum
          / (T : ℝ))) ∧
    Core._calculate_weighted_gap_score [10] 214 weighted_gap_tau =
      some (Real.exp (1 / 2) * 10 / 214) ∧
    |Real.exp (1 / 2) * 10 / 214 - 0.0771| < 0.001 := by
  refine ⟨?_, ?_, ?_⟩
  · intro gaps T tau hT htau
    by_cases h : gaps = []
    · subst h
      simp [Core._calculate_weighted_gap_score]
    · simp [Core._calculate_weighted_gap_score, h, htau, hT.ne']
  · have h10 : ((10 : ℤ) : ℝ) / ((weighted_gap_tau : ℤ) : ℝ) = 1 / 2 := by
      norm_num [weighted_gap_tau]
    simp [Core._calculate_weighted_gap_score, weighted_gap_tau]
    norm_num
  · have hb := exp_half_bounds
    rw [abs_lt]
    constructor <;> nlinarith [hb.1, hb.2]

/-- C2 witness: the amended theorem applied at gaps `[10]`, `T = 214`,
τ = 20. -/
theorem weighted_gap_score_sums_all_gaps_witness :
    Core._calculate_weighted_gap_score [10] 214 20 =
      some (([10].map (fun g : ℤ => Real.exp ((g : ℝ) / ((20 : ℤ) : ℝ)) * (g : ℝ))).sum
        / ((214 : ℤ) : ℝ)) :=
  weighted_gap_score_sums_all_gaps.1 [10] 214 20 (by decide) (by decide)

/-- C1: for all finite non-negative inputs the suitability score lies in
`[0, 1]`, and whenever the primary-sensor (S2) density is exactly `0` the
score is exactly `0.0`, regardless of all other inputs. -/
theorem suitability_score_in_unit_interval
    (s2_density s3_density cloud_mean : ℝ) (max_gap overlap_days : ℤ)
    (s2_weighted_gap_score s3_weighted_gap_score : ℝ) (gap_count : ℤ)
    (h2 : 0 ≤ s2_density) (h3 : 0 ≤ s3_density) (hc : 0 ≤ cloud_mean)
    (hg : 0 ≤ max_gap) (ho : 0 ≤ overlap_days)
    (hw2 : 0 ≤ s2_weighted_gap_score) (hw3 : 0 ≤ s3_weighted_gap_score)
    (hgc : 0 ≤ gap_count) :
    (0 ≤ Core._calculate_suitability_score s2_density s3_density cloud_mean
        max_gap overlap_days s2_weighted_gap_score s3_weighted_gap_score gap_count ∧
      Core._calculate_suitability_score s2_density s3_density cloud_mean
        max_gap overlap_days s2_weighted_gap_score s3_weighted_gap_score gap_count ≤ 1) ∧
    (s2_density = 0 →
      Core._calculate_suitability_score s2_density s3_density cloud_mean
        max_gap overlap_days s2_weighted_gap_score s3_weighted_gap_score gap_count = 0) := by
  refine ⟨?_, fun h0 => by simp [Core._calculate_suitability_score, h0]⟩
  by_cases h0 : s2_density = 0
  · simp [Core._calculate_suitability_score, h0]
  · simp only [Core._calculate_suitability_score]
    rw [if_neg h0]
    have hA0 : (0 : ℝ) ≤ min (s2_density / 3.0) 1.0 := le_min (by positivity) (by norm_num)
    have hA1 : min (s2_density / 3.0) 1.0 ≤ 1 := (min_le_right _ _).trans (by norm_num)
    have hB0 : (0 : ℝ) ≤ min (s3_density / 2.0) 1.0 := le_min (by positivity) (by norm_num)
    have hB1 : min (s3_density / 2.0) 1.0 ≤ 1 := (min_le_right _ _).trans (by norm_num)
    have hCx : (0 : ℝ) ≤ (cloud_mean / 80.0) ^ (1.5 : ℝ) :=
      Real.rpow_nonneg (by positivity) _
    have hC0 : (0.05 : ℝ) ≤ max 0.05 (1.0 - (cloud_mean / 80.0) ^ (1.5 : ℝ)) :=
      le_max_left _ _
    have hC1 : max 0.05 (1.0 - (cloud_mean / 80.0) ^ (1.5 : ℝ)) ≤ 1 :=
      max_le (by norm_num) (by linarith)
    have hGx : (0 : ℝ) ≤ ((max_gap : ℝ) / 30.0) ^ (1.2 : ℝ) :=
      Real.rpow_nonneg (div_nonneg (by exact_mod_cast hg) (by norm_num)) _
    have hG0 : (0.1 : ℝ) ≤ max 0.1 (1.0 - ((max_gap : ℝ) / 30.0) ^ (1.2 : ℝ)) :=
      le_max_left _ _
    have hG1 : max 0.1 (1.0 - ((max_gap : ℝ) / 30.0) ^ (1.2 : ℝ)) ≤ 1 :=
      max_le (by norm_num) (by linarith)
    have hW0 : (0 : ℝ) ≤ min (s2_weighted_gap_score / 2.0) 1.0 :=
      le_min (by positivity) (by norm_num)
    have hW1 : min (s2_weighted_gap_score / 2.0) 1.0 ≤ 1 :=
      (min_le_right _ _).trans (by norm_num)
    have hV0 : (0.1 : ℝ) ≤ max 0.1 (1.0 - min (s2_weighted_gap_score / 2.0) 1.0) :=
      le_max_left _ _
    have hV1 : max 0.1 (1.0 - min (s2_weighted_gap_score / 2.0) 1.0) ≤ 1 :=
      max_le (by norm_num) (by linarith)
    have hE1 : (1 : ℝ) ≤ max (s2_density * 8) 1 := le_max_right _ _
    have hP : (0 : ℝ) ≤ (if 0 < gap_count then
          min ((gap_count : ℝ) / max (s2_density * 8) 1) 1.0 else 0.0) ∧
        (if 0 < gap_count then
          min ((gap_count : ℝ) / max (s2_density * 8) 1) 1.0 else 0.0) ≤ 1 := by
      split_ifs with h
      · exact ⟨le_min (div_nonneg (by exact_mod_cast hgc) (by linarith)) (by norm_num),
          (min_le_right _ _).trans (by norm_num)⟩
      · norm_num
    have hF0 : (0.2 : ℝ) ≤ max 0.2 (1.0 - (if 0 < gap_count then
          min ((gap_count : ℝ) / max (s2_density * 8) 1) 1.0 else 0.0)) :=
      le_max_left _ _
    have hF1 : max 0.2 (1.0 - (if 0 < gap_count then
          min ((gap_count : ℝ) / max (s2_density * 8) 1) 1.0 else 0.0)) ≤ 1 :=
      max_le (by norm_num) (by linarith [hP.1])
    constructor
    · linarith
    · linarith

/-- C1 witness: the theorem applied at a concrete non-negative input. -/
theorem suitability_score_in_unit_interval_witness :
    0 ≤ Core._calculate_suitability_score 1 1 50 10 0 1 1 2 ∧
    Core._calculate_suitability_score 1 1 50 10 0 1 1 2 ≤ 1 :=
  (suitability_score_in_unit_interval 1 1 50 10 0 1 1 2 (by norm_num) (by norm_num)
    (by norm_num) (by norm_num) (by norm_num) (by norm_num) (by norm_num)
    (by norm_num)).1

/-- C6: an observation whose value lies below the absolute implausibility
floor `0.1` is always flagged as an outlier, at its own position,
independently of the window contents and of any envelope computation. -/
theorem below_floor_always_flagged
    (ndvi_data : List GetIndices.NdviEntry) (window_days : ℤ)
    (percentile threshold_below : ℚ) (i : ℕ) (e : GetIndices.NdviEntry) (v : ℚ)
    (he : ndvi_data.get? i = some e) (hv : e.ndvi = some v) (hlow : v < 0.1) :
    (GetIndices.detect_outliers_upper_envelope ndvi_data window_days percentile
      threshold_below).get? i = some true := by
  have hmem : e ∈ ndvi_data := List.get?_mem he
  have hmem2 : (e.date, v) ∈ ndvi_data.filterMap
      (fun e => e.ndvi.map (fun v => (e.date, v))) :=
    List.mem_filterMap.mpr ⟨e, hmem, by rw [hv]; rfl⟩
  have hne : GetIndices.valid_data ndvi_data ≠ [] := by
    unfold GetIndices.valid_data
    exact List.ne_nil_of_mem ((List.perm_insertionSort _ _).mem_iff.mpr hmem2)
  unfold GetIndices.detect_outliers_upper_envelope
  rw [if_neg hne, List.get?_map, he]
  simp [hv, hlow]

/-- C6 witness: the theorem applied to the single observation `0.05`. -/
theorem below_floor_always_flagged_witness :
    (GetIndices.detect_outliers_upper_envelope [⟨0, some (1 / 20)⟩] 30 80
      (3 / 20)).get? 0 = some true :=
  below_floor_always_flagged [⟨0, some (1 / 20)⟩] 30 80 (3 / 20) 0 ⟨0, some (1 / 20)⟩
    (1 / 20) rfl rfl (by norm_num)

/-- C7: the outlier detector returns exactly one flag per input entry,
positionally aligned; a `None`-valued entry is never flagged; and for an
all-`None` series every flag is `false` and the downstream statistics
(mean, min, max, range, observation count, gap numbers) are all zero. -/
theorem detector_alignment_and_all_null :
    (∀ (ndvi_data : List GetIndices.NdviEntry) (window_days : ℤ)
        (percentile threshold_below : ℚ),
      (GetIndices.detect_outliers_upper_envelope ndvi_data window_days percentile
        threshold_below).length = ndvi_data.length) ∧
    (∀ (ndvi_data : List GetIndices.NdviEntry) (window_days : ℤ)
        (percentile threshold_below : ℚ) (i : ℕ) (e : GetIndices.NdviEntry),
      ndvi_data.get? i = some e → e.ndvi = none →
      (GetIndices.detect_outliers_upper_envelope ndvi_data window_days percentile
        threshold_below).get? i = some false) ∧
    (∀ ndvi_data : List GetIndices.NdviEntry,
      (∀ e ∈ ndvi_data, e.ndvi = none) →
      GetIndices.detect_outliers_upper_envelope ndvi_data
          GetIndices.envelope_window_days GetIndices.envelope_percentile
          GetIndices.envelope_threshold_below = ndvi_data.map (fun _ => false) ∧
      GetIndices.calculate_ndvi_from_series ndvi_data = ⟨0, 0, 0, 0, 0, 0, 0, 0⟩) := by
  refine ⟨?_, ?_, ?_⟩
  · intro ndvi_data window_days percentile threshold_below
    simp only [GetIndices.detect_outliers_upper_envelope]
    split <;> simp
  · intro ndvi_data window_days percentile threshold_below i e he hnone
    simp only [GetIndices.detect_outliers_upper_envelope]
    split
    · rw [List.get?_map, he]
      rfl
    · rw [List.get?_map, he]
      simp [hnone]
  · intro ndvi_data hall
    have hvnil : GetIndices.valid_data ndvi_data = [] := by
      unfold GetIndices.valid_data
      rw [List.filterMap_eq_nil_iff.mpr (fun e he => by rw [hall e he]; rfl)]
      rfl
    have hdet : ∀ (window_days : ℤ) (percentile threshold_below : ℚ),
        GetIndices.detect_outliers_upper_envelope ndvi_data window_days percentile
          threshold_below = ndvi_data.map (fun _ => false) := by
      intro window_days percentile threshold_below
      unfold GetIndices.detect_outliers_upper_envelope
      rw [if_pos hvnil]
    refine ⟨hdet _ _ _, ?_⟩
    have hzipnil : ∀ flags : List Bool,
        (ndvi_data.zip flags).filterMap (fun p =>
          match p.1.ndvi with
          | some v => if p.2 then none else some v
          | none => none) = ([] : List ℚ) := by
      intro flags
      refine List.filterMap_eq_nil_iff.mpr ?_
      intro p hp
      cases p with
      | mk a b =>
        have ha : a ∈ ndvi_data := (List.of_mem_zip hp).1
        rw [hall a ha]
    have hzipnil2 : ∀ flags : List Bool,
        (ndvi_data.zip flags).filterMap (fun p =>
          match p.1.ndvi with
          | some _ => if p.2 then none else some p.1.date
          | none => none) = ([] : List ℤ) := by
      intro flags
      refine List.filterMap_eq_nil_iff.mpr ?_
      intro p hp
      cases p with
      | mk a b =>
        have ha : a ∈ ndvi_data := (List.of_mem_zip hp).1
        rw [hall a ha]
    simp only [GetIndices.calculate_ndvi_from_series]
    rw [hzipnil, hzipnil2]
    rw [show GetIndices.calculate_gaps [] 3 = (0, 0, 0) from rfl]
    norm_num [pyRound, pyRoundInt]

/-- C7 witness: the theorem applied to a two-entry all-`None` series. -/
theorem detector_alignment_and_all_null_witness :
    (GetIndices.detect_outliers_upper_envelope [⟨0, none⟩, ⟨5, none⟩]
        GetIndices.envelope_window_days GetIndices.envelope_percentile
        GetIndices.envelope_threshold_below).get? 1 = some false ∧
    GetIndices.calculate_ndvi_from_series [⟨0, none⟩, ⟨5, none⟩] =
      ⟨0, 0, 0, 0, 0, 0, 0, 0⟩ :=
  ⟨detector_alignment_and_all_null.2.1 [⟨0, none⟩, ⟨5, none⟩]
      GetIndices.envelope_window_days GetIndices.envelope_percentile
      GetIndices.envelope_threshold_below 1 ⟨5, none⟩ rfl rfl,
    (detector_alignment_and_all_null.2.2 [⟨0, none⟩, ⟨5, none⟩] (by decide)).2⟩

/-- C3: when the satellite query for a season raises, the season result
carries `suitability_score = None` together with the error text (a numeric
score is never substituted); when the queries succeed but yield zero
in-season records for both sensors, the result carries
`suitability_score = 0.0` together with the explanatory no-data marker —
distinguishable from the error case, whose score is `None`. -/
theorem season_error_and_no_data :
    (∀ (e : String) (sitename : String) (year : ℤ)
        (season_start season_end : PyDate) (season_months : List ℤ),
      (Core.evaluate_one_season (.error e) sitename year season_start season_end
        season_months).suitability_score = none ∧
      (Core.evaluate_one_season (.error e) sitename year season_start season_end
        season_months).error = some e) ∧
    (∀ (s2_data s3_data : SatData) (sitename : String) (year : ℤ)
        (season_start season_end : PyDate) (season_months : List ℤ),
      Core._extract_growing_season_dates s2_data.features season_months = [] →
      Core._extract_growing_season_dates s3_data.features season_months = [] →
      (Core.evaluate_one_season (.ok (s2_data, s3_data)) sitename year season_start
        season_end season_months).suitability_score = some 0 ∧
      (Core.evaluate_one_season (.ok (s2_data, s3_data)) sitename year season_start
        season_end season_months).error =
          some "No satellite data available for this season") := by
  constructor
  · intro e sitename year season_start season_end season_months
    exact ⟨rfl, rfl⟩
  · intro s2_data s3_data sitename year season_start season_end season_months h2 h3
    simp only [Core.evaluate_one_season, Core._calculate_seasonal_metrics]
    rw [h2, h3]
    norm_num

/-- C3 witness: the theorem applied at a concrete failed query and at a
concrete empty pair of query responses. -/
theorem season_error_and_no_data_witness :
    ((Core.evaluate_one_season (.error "connection error") "site" 2023 ⟨0, 4⟩
        ⟨210, 10⟩ growing_season_months).suitability_score = none ∧
      (Core.evaluate_one_season (.error "connection error") "site" 2023 ⟨0, 4⟩
        ⟨210, 10⟩ growing_season_months).error = some "connection error") ∧
    ((Core.evaluate_one_season (.ok (⟨[]⟩, ⟨[]⟩)) "site" 2023 ⟨0, 4⟩
        ⟨210, 10⟩ growing_season_months).suitability_score = some 0 ∧
      (Core.evaluate_one_season (.ok (⟨[]⟩, ⟨[]⟩)) "site" 2023 ⟨0, 4⟩
        ⟨210, 10⟩ growing_season_months).error =
          some "No satellite data available for this season") :=
  ⟨season_error_and_no_data.1 "connection error" "site" 2023 ⟨0, 4⟩ ⟨210, 10⟩
      growing_season_months,
    season_error_and_no_data.2 ⟨[]⟩ ⟨[]⟩ "site" 2023 ⟨0, 4⟩ ⟨210, 10⟩
      growing_season_months rfl rfl⟩

end PhenocamFinder
